import Mathlib

/-!
Shallow embedding of the dc-server order-management backend
(Express + Supabase) for spec verification.

Sources embedded:
- src/src/routes/orders.ts        (order CRUD, notification fan-out, stats)
- src/src/routes/history.ts       (history append)
- src/database/setup.sql          (triggers: handle_order_completion,
                                   update_updated_at_column, handle_new_user)
- auth middleware (authenticate / requireAdmin)
- auth routes (register, create-viewer, register-admin)

Machine conventions: timestamps are Nat ("now" passed in explicitly),
ids are String, nullable columns are Option, JSON-absent fields are the
outer layer of an Option.
-/

namespace DcServer

/-- Order status enum: the CHECK constraint on orders.status. -/
inductive Status where
  | incoming
  | accepted
  | declined
  | pending
  | completed
deriving DecidableEq, Repr

/-- User role enum: the CHECK constraint on user_profiles.role. -/
inductive Role where
  | viewer
  | admin
deriving DecidableEq, Repr

/-- Notification type enum from the notifications schema / TS union type. -/
inductive NotifType where
  | info
  | success
  | warning
  | error
  | order
deriving DecidableEq, Repr

/-- A row of the orders table (interface Order in types/database.ts). -/
structure Order where
  id : String
  customer_name : String
  order_details : String
  location : Option String
  phone_number : Option String
  pickup_date : Option String
  meta_business_link : Option String
  image : Option String
  status : Status
  created_at : Nat
  completed_at : Option Nat
  created_by : Option String
  updated_at : Nat
deriving DecidableEq, Repr

/-- A row of the notifications table as inserted by
createNotificationForAdmins. -/
structure Notification where
  user_id : String
  title : String
  message : String
  type : NotifType
  order_id : Option String
deriving DecidableEq, Repr

/-- The PUT /api/orders/:id request body (interface OrderUpdate):
every field optional; nullable columns carry a nested Option so that a
payload can set them to null explicitly. -/
structure OrderUpdate where
  customer_name : Option String := none
  order_details : Option String := none
  location : Option (Option String) := none
  phone_number : Option (Option String) := none
  pickup_date : Option (Option String) := none
  meta_business_link : Option (Option String) := none
  image : Option (Option String) := none
  status : Option Status := none
  completed_at : Option (Option Nat) := none
deriving DecidableEq, Repr

/-- Object.keys(updateData).length == 0 check of the PUT handler. -/
def OrderUpdate.isEmpty (u : OrderUpdate) : Bool :=
  u.customer_name.isNone && u.order_details.isNone && u.location.isNone &&
  u.phone_number.isNone && u.pickup_date.isNone && u.meta_business_link.isNone &&
  u.image.isNone && u.status.isNone && u.completed_at.isNone

/-- Field filtering of PUT /api/orders/:id (orders.ts lines 211-226):
each body field present is copied into updateData; completed_at is copied
only when the caller is an admin. -/
def buildUpdateData (role : Role) (body : OrderUpdate) : OrderUpdate :=
  { customer_name := body.customer_name
    order_details := body.order_details
    location := body.location
    phone_number := body.phone_number
    pickup_date := body.pickup_date
    meta_business_link := body.meta_business_link
    image := body.image
    status := body.status
    completed_at := if role = Role.admin then body.completed_at else none }

/-- Merge-patch application of updateData to the existing row (the
semantics of the supabase .update call: absent fields untouched). -/
def applyUpdateData (o : Order) (u : OrderUpdate) : Order :=
  { o with
    customer_name := u.customer_name.getD o.customer_name
    order_details := u.order_details.getD o.order_details
    location := u.location.getD o.location
    phone_number := u.phone_number.getD o.phone_number
    pickup_date := u.pickup_date.getD o.pickup_date
    meta_business_link := u.meta_business_link.getD o.meta_business_link
    image := u.image.getD o.image
    status := u.status.getD o.status
    completed_at := u.completed_at.getD o.completed_at }

/-- SQL trigger function handle_order_completion (setup.sql):
BEFORE UPDATE, fired only WHEN old status IS DISTINCT FROM new status;
sets completed_at to NOW() on a transition into completed, and to NULL
whenever the new status is not completed. -/
def handle_order_completion (now : Nat) (oldStatus : Status) (row : Order) : Order :=
  if row.status = Status.completed ∧ oldStatus ≠ Status.completed then
    { row with completed_at := some now }
  else if row.status ≠ Status.completed then
    { row with completed_at := none }
  else row

/-- The two BEFORE UPDATE triggers on orders: on_order_status_change
(guarded by a status-change WHEN clause) and update_orders_updated_at
(always refreshes updated_at). -/
def runOrderUpdateTriggers (now : Nat) (old : Order) (merged : Order) : Order :=
  let afterCompletion :=
    if old.status ≠ merged.status then handle_order_completion now old.status merged
    else merged
  { afterCompletion with updated_at := now }

/-- Outcome of the external parts of the notification fan-out: the admin
user_profiles lookup and the notifications insert, which can each fail
independently of the order mutation. -/
structure FanoutEnv where
  adminLookup : Except String (List String)
  insertFailure : Option String
deriving Repr

/-- createNotificationForAdmins (orders.ts lines 12-67): looks up all
admin profile ids, optionally filters out excludeUserId, builds one
notification per remaining admin and inserts them; every failure path
(lookup error, no admins, insert error) is swallowed and yields no
created notifications. Returns the list of notifications actually
created. -/
def createNotificationForAdmins (env : FanoutEnv) (title message : String)
    (type : NotifType) (orderId : Option String)
    (excludeUserId : Option String) : List Notification :=
  match env.adminLookup with
  | Except.error _ => []
  | Except.ok admins =>
    if admins.isEmpty then []
    else
      let adminsToNotify :=
        match excludeUserId with
        | some ex => admins.filter (fun a => ¬ (a = ex))
        | none => admins
      if adminsToNotify.isEmpty then []
      else
        let notifications := adminsToNotify.map (fun a =>
          { user_id := a, title := title, message := message,
            type := type, order_id := orderId : Notification })
        match env.insertFailure with
        | some _ => []
        | none => notifications

/-- The per-status human message map of the PUT handler. -/
def statusMoveMessage : Status → String
  | Status.incoming => "Order moved to incoming"
  | Status.pending => "Order moved to pending"
  | Status.accepted => "Order moved to accepted"
  | Status.declined => "Order moved to declined"
  | Status.completed => "Order moved to completed"

/-- Lowercase rendering of a status value (its TS string literal). -/
def Status.toText : Status → String
  | Status.incoming => "incoming"
  | Status.accepted => "accepted"
  | Status.declined => "declined"
  | Status.pending => "pending"
  | Status.completed => "completed"

/-- Uppercased rendering used in the notification title
(newStatus.toUpperCase()). -/
def Status.toUpperText : Status → String
  | Status.incoming => "INCOMING"
  | Status.accepted => "ACCEPTED"
  | Status.declined => "DECLINED"
  | Status.pending => "PENDING"
  | Status.completed => "COMPLETED"

/-- The status-change notification message template of the PUT handler:
Order for NAME - MSG. plus a Details clause when order_details is
truthy (non-empty). -/
def statusChangeMessage (o : Order) (s : Status) : String :=
  "Order for " ++ o.customer_name ++ " - " ++ statusMoveMessage s ++ ". " ++
    (if o.order_details = "" then "" else "Details: " ++ o.order_details)

/-- Notification type chosen by the PUT handler for a status change. -/
def notificationTypeFor (s : Status) : NotifType :=
  if s = Status.completed then NotifType.success
  else if s = Status.declined then NotifType.warning
  else NotifType.order

/-- The notification block of PUT /api/orders/:id (lines 271-322): when
updateData carries a status and it differs from the old status, fan out a
status-move notification to all admins with no exclusion; when it equals
the old status, skip; when updateData has no status, fan out a generic
info notification only when the actor is an admin. -/
def updateNotifications (env : FanoutEnv) (isAdmin : Bool) (oldStatus : Status)
    (newOrder : Order) (u : OrderUpdate) : List Notification :=
  match u.status with
  | some newStatus =>
    if oldStatus = newStatus then []
    else
      createNotificationForAdmins env
        ("Order Moved: " ++ newStatus.toUpperText)
        (statusChangeMessage newOrder newStatus)
        (notificationTypeFor newStatus)
        (some newOrder.id)
        none
  | none =>
    if isAdmin then
      createNotificationForAdmins env ("Order Updated")
        ("Order for " ++ newOrder.customer_name ++ " has been updated")
        NotifType.info (some newOrder.id) none
    else []

/-- HTTP-level outcome of the PUT handler. -/
inductive UpdateResponse where
  | noOp
  | notFound
  | ok (o : Order)
deriving DecidableEq, Repr

/-- Full outcome of one PUT /api/orders/:id request: the response sent,
the resulting orders store, and the notifications created by fan-out. -/
structure PutOutcome where
  response : UpdateResponse
  store : List Order
  notifs : List Notification
deriving Repr

/-- PUT /api/orders/:id (orders.ts lines 202-334): filter fields by
role, reject an empty updateData with 400 No fields to update, 404 when
the row is absent, otherwise apply the merge-patch plus the SQL triggers,
store the row and run the notification block. -/
def putOrder (env : FanoutEnv) (now : Nat) (role : Role) (db : List Order)
    (oid : String) (body : OrderUpdate) : PutOutcome :=
  let updateData := buildUpdateData role body
  if updateData.isEmpty then
    { response := UpdateResponse.noOp, store := db, notifs := [] }
  else
    match db.find? (fun o => o.id = oid) with
    | none => { response := UpdateResponse.notFound, store := db, notifs := [] }
    | some old =>
      let newOrder := runOrderUpdateTriggers now old (applyUpdateData old updateData)
      { response := UpdateResponse.ok newOrder
        store := db.map (fun o => if o.id = oid then newOrder else o)
        notifs := updateNotifications env (role = Role.admin) old.status newOrder updateData }

/-- The POST /api/orders request body: customer_name and order_details
default to the empty string when absent (a JS falsy check treats both the
same); the other fields default to null via the || null coalescing. -/
structure OrderCreateBody where
  customer_name : String := ""
  order_details : String := ""
  location : Option String := none
  phone_number : Option String := none
  pickup_date : Option String := none
  meta_business_link : Option String := none
  image : Option String := none
  status : Option Status := none
deriving DecidableEq, Repr

/-- HTTP-level outcome of POST /api/orders. -/
inductive CreateResponse where
  | forbidden
  | validationError
  | created (o : Order)
deriving DecidableEq, Repr

/-- POST /api/orders (orders.ts lines 140-194) behind the requireAdmin
middleware: non-admin callers get 403; then customer_name and
order_details are required non-empty (JS falsy check), status defaults to
incoming, created_by is the acting user, timestamps and completed_at come
from column defaults. -/
def postOrder (now : Nat) (role : Role) (actorId : String) (newId : String)
    (body : OrderCreateBody) : CreateResponse :=
  if ¬ (role = Role.admin) then CreateResponse.forbidden
  else
    if body.customer_name = "" ∨ body.order_details = "" then
      CreateResponse.validationError
    else
      CreateResponse.created
        { id := newId
          customer_name := body.customer_name
          order_details := body.order_details
          location := body.location
          phone_number := body.phone_number
          pickup_date := body.pickup_date
          meta_business_link := body.meta_business_link
          image := body.image
          status := body.status.getD Status.incoming
          created_at := now
          completed_at := none
          created_by := some actorId
          updated_at := now }

/-- HTTP-level outcome of DELETE /api/orders/:id. The notFound
constructor exists so the spec's claimed failure mode is statable; the
handler itself never produces it. -/
inductive DeleteResponse where
  | forbidden
  | success
  | notFound
deriving DecidableEq, Repr

/-- DELETE /api/orders/:id (orders.ts lines 340-369) behind requireAdmin:
non-admin callers get 403; otherwise the supabase delete filtered on id
runs and the handler replies Order deleted successfully without checking
whether any row matched. -/
def deleteOrder (role : Role) (db : List Order) (oid : String) :
    DeleteResponse × List Order :=
  if ¬ (role = Role.admin) then (DeleteResponse.forbidden, db)
  else (DeleteResponse.success, db.filter (fun o => ¬ (o.id = oid)))

/-- The orders statistics object of GET /api/orders/stats/summary. -/
structure OrderStats where
  total : Nat
  incoming : Nat
  pending : Nat
  accepted : Nat
  declined : Nat
  completed : Nat
deriving DecidableEq, Repr

/-- GET /api/orders/stats/summary (orders.ts lines 375-402): total is the
number of fetched orders and each per-status count is a filter length. -/
def statsSummary (orders : List Order) : OrderStats :=
  { total := orders.length
    incoming := (orders.filter (fun o => o.status = Status.incoming)).length
    pending := (orders.filter (fun o => o.status = Status.pending)).length
    accepted := (orders.filter (fun o => o.status = Status.accepted)).length
    declined := (orders.filter (fun o => o.status = Status.declined)).length
    completed := (orders.filter (fun o => o.status = Status.completed)).length }

/-- The POST /api/history request body: all fields optional strings. -/
structure HistoryBody where
  order_id : Option String := none
  event_type : Option String := none
  old_status : Option String := none
  new_status : Option String := none
  note : Option String := none
deriving DecidableEq, Repr

/-- A row of the order_history table as inserted by POST /api/history. -/
structure HistoryRecord where
  order_id : String
  user_id : String
  event_type : String
  old_status : Option String
  new_status : Option String
  note : Option String
deriving DecidableEq, Repr

/-- HTTP-level outcome of POST /api/history. -/
inductive HistoryResponse where
  | validationError
  | created (r : HistoryRecord)
deriving DecidableEq, Repr

/-- The JS falsy test on an optional string body field: true when the
field is absent or the empty string. -/
def falsyStr (s : Option String) : Bool :=
  s.getD "" = ""

/-- POST /api/history (history.ts lines 55-110), after authentication and
the requireAdmin middleware: 400 when order_id or event_type is falsy;
otherwise inserts a record with the acting user id and the optional
fields null-coalesced. -/
def postHistory (actorId : String) (body : HistoryBody) : HistoryResponse :=
  if falsyStr body.order_id ∨ falsyStr body.event_type then
    HistoryResponse.validationError
  else
    HistoryResponse.created
      { order_id := body.order_id.getD ""
        user_id := actorId
        event_type := body.event_type.getD ""
        old_status := body.old_status
        new_status := body.new_status
        note := body.note }

/-- A row of the user_profiles table (the slice authentication reads). -/
structure UserProfile where
  id : String
  username : String
  role : Role
deriving DecidableEq, Repr

/-- Identity returned by the provider for a verified token
(supabase.auth.getUser). -/
structure VerifiedUser where
  id : String
  email : Option String
deriving DecidableEq, Repr

/-- External collaborators of the authenticate middleware: token
verification by the identity provider and the privileged (RLS-bypassing)
profile store read. -/
structure AuthEnv where
  verifyToken : String → Option VerifiedUser
  profiles : List UserProfile

/-- Outcome of the authenticate middleware. -/
inductive AuthOutcome where
  | unauthenticated (msg : String)
  | ok (id : String) (email : Option String) (role : Role)
deriving DecidableEq, Repr

/-- True exactly on the unauthenticated (HTTP 401) outcome. -/
def AuthOutcome.isUnauthenticated : AuthOutcome → Bool
  | AuthOutcome.unauthenticated _ => true
  | AuthOutcome.ok _ _ _ => false

/-- Character-level model of String.startsWith (the authorization header
check); equivalent to the byte-level library routine on well-formed
strings, stated over the character list so proofs can compute. -/
def strStartsWith (s pre : String) : Bool :=
  pre.data.isPrefixOf s.data

/-- Character-level model of String.drop used to strip the 7-character
Bearer prefix from the Authorization header. -/
def strDrop (s : String) (n : Nat) : String :=
  String.mk (s.data.drop n)

/-- authenticate middleware (middleware/auth.ts): 401 when the
Authorization header is missing or does not start with Bearer, or when
the provider rejects the token; on success it reads the profile through
the admin client and defaults the role to viewer when no profile row
exists. -/
def authenticate (env : AuthEnv) (authHeader : Option String) : AuthOutcome :=
  match authHeader with
  | none => AuthOutcome.unauthenticated ("Missing or invalid authorization header")
  | some h =>
    if ¬ (strStartsWith h ("Bearer ")) then
      AuthOutcome.unauthenticated ("Missing or invalid authorization header")
    else
      match env.verifyToken (strDrop h 7) with
      | none => AuthOutcome.unauthenticated ("Invalid or expired token")
      | some u =>
        match env.profiles.find? (fun p => p.id = u.id) with
        | none => AuthOutcome.ok u.id u.email Role.viewer
        | some p => AuthOutcome.ok u.id u.email p.role

/-- requireAdmin middleware: 403 unless the resolved role is admin. -/
def requireAdmin (role : Role) : Bool :=
  role = Role.admin

/-- Request body of the registration endpoints. A role field is included
because a client may supply one; the handlers destructure only email,
password and username. -/
structure RegisterBody where
  email : Option String := none
  password : Option String := none
  username : Option String := none
  role : Option String := none
deriving DecidableEq, Repr

/-- External collaborators and outcomes the registration endpoints
depend on: the set of taken usernames, whether the provider accepted the
account creation and the fresh identity id, whether the follow-up
user_profiles update succeeded, and the email-format test result used by
create-viewer. -/
structure RegisterEnv where
  existingUsernames : List String
  signUpOk : Bool
  newUserId : String
  profileUpdateOk : Bool
  emailFormatOk : Bool
deriving Repr

/-- HTTP-level outcome of a registration endpoint. -/
inductive RegisterResponse where
  | validationError (msg : String)
  | providerError
  | created (userId : String) (username : String) (role : Role)
deriving DecidableEq, Repr

/-- SQL trigger function handle_new_user (setup.sql): on identity
creation, inserts a profile whose username falls back to the email and
whose role falls back to viewer when the signup metadata carries none. -/
def handle_new_user (newId : String) (metaUsername : Option String)
    (email : String) (metaRole : Option Role) : UserProfile :=
  { id := newId
    username := metaUsername.getD email
    role := metaRole.getD Role.viewer }

/-- The profile a registration endpoint leaves behind: the trigger first
creates it from the signup metadata, then the handler updates username
and role to explicit values; if that update fails the trigger-created row
remains (the handler only logs the error). -/
def registeredProfile (env : RegisterEnv) (body : RegisterBody)
    (metaRole : Role) (explicitRole : Role) : UserProfile :=
  let triggerProfile :=
    handle_new_user env.newUserId body.username (body.email.getD "") (some metaRole)
  if env.profileUpdateOk then
    { triggerProfile with username := body.username.getD "", role := explicitRole }
  else triggerProfile

/-- POST /api/auth/register (public viewer registration): validates
email/password/username presence and password length, rejects taken
usernames, signs up with metadata role viewer and then forces the profile
row to role viewer. The request body role field is never read. -/
def registerViewerAccount (env : RegisterEnv) (body : RegisterBody) : RegisterResponse :=
  if falsyStr body.email ∨ falsyStr body.password then
    RegisterResponse.validationError ("Email and password are required")
  else if falsyStr body.username then
    RegisterResponse.validationError ("Username is required")
  else if (body.password.getD "").length < 6 then
    RegisterResponse.validationError ("Password must be at least 6 characters long")
  else if env.existingUsernames.contains (body.username.getD "") then
    RegisterResponse.validationError ("Username already taken")
  else if ¬ env.signUpOk then
    RegisterResponse.providerError
  else
    RegisterResponse.created env.newUserId (body.username.getD "")
      (registeredProfile env body Role.viewer Role.viewer).role

/-- POST /api/auth/create-viewer (public): same shape with an email
format check; signup metadata role viewer, profile forced to viewer. The
request body role field is never read. -/
def createViewerAccount (env : RegisterEnv) (body : RegisterBody) : RegisterResponse :=
  if falsyStr body.username ∨ falsyStr body.password ∨ falsyStr body.email then
    RegisterResponse.validationError ("Username, email, and password are required")
  else if ¬ env.emailFormatOk then
    RegisterResponse.validationError ("Invalid email format")
  else if (body.password.getD "").length < 6 then
    RegisterResponse.validationError ("Password must be at least 6 characters long")
  else if env.existingUsernames.contains (body.username.getD "") then
    RegisterResponse.validationError ("Username already taken")
  else if ¬ env.signUpOk then
    RegisterResponse.providerError
  else
    RegisterResponse.created env.newUserId (body.username.getD "")
      (registeredProfile env body Role.viewer Role.viewer).role

/-- POST /api/auth/register-admin (public): validations as register, but
the identity is created with metadata role admin and the profile row is
forced to role admin. -/
def registerAdminAccount (env : RegisterEnv) (body : RegisterBody) : RegisterResponse :=
  if falsyStr body.email ∨ falsyStr body.password then
    RegisterResponse.validationError ("Email and password are required")
  else if falsyStr body.username then
    RegisterResponse.validationError ("Username is required")
  else if (body.password.getD "").length < 6 then
    RegisterResponse.validationError ("Password must be at least 6 characters long")
  else if env.existingUsernames.contains (body.username.getD "") then
    RegisterResponse.validationError ("Username already taken")
  else if ¬ env.signUpOk then
    RegisterResponse.providerError
  else
    RegisterResponse.created env.newUserId (body.username.getD "")
      (registeredProfile env body Role.admin Role.admin).role

/-- String containment: hay splits as p ++ needle ++ q. -/
def strContains (hay needle : String) : Prop :=
  ∃ p q : String, hay = p ++ needle ++ q

/-- The update payload a client sends when it only wants to set
completed_at (the admin-only field). -/
def onlyCompletedAt (c : Option Nat) : OrderUpdate :=
  { completed_at := some c }

/-- A concrete order row used to instantiate theorems. -/
def sampleOrder : Order :=
  { id := "o-1"
    customer_name := "Jane"
    order_details := "2kg vanilla"
    location := none
    phone_number := none
    pickup_date := none
    meta_business_link := none
    image := none
    status := Status.pending
    created_at := 0
    completed_at := none
    created_by := some ("u-1")
    updated_at := 0 }

/-- The sample order after an admin moves it to completed at time 7. -/
def sampleCompletedOrder : Order :=
  { sampleOrder with
    status := Status.completed
    completed_at := some 7
    updated_at := 7 }

/-- A fan-out environment where both external calls succeed and there is
one admin profile. -/
def sampleEnvOk : FanoutEnv :=
  { adminLookup := Except.ok [("a-1")], insertFailure := none }

/-- A fan-out environment whose admin lookup fails. -/
def sampleEnvLookupFail : FanoutEnv :=
  { adminLookup := Except.error ("boom"), insertFailure := none }

/-- A fan-out environment whose notifications insert fails. -/
def sampleEnvInsertFail : FanoutEnv :=
  { adminLookup := Except.ok [("a-1")], insertFailure := some ("disk full") }

/- ------------------------------------------------------------------ -/
/- Helper lemmas -/
/- ------------------------------------------------------------------ -/

theorem strContains_self (s : String) : strContains s s :=
  ⟨"", "", by rw [String.append_empty, String.empty_append]⟩

theorem strContains_empty (s : String) : strContains s "" :=
  ⟨"", s, by rw [String.append_empty, String.empty_append]⟩

theorem strContains_append_left {a n : String} (b : String)
    (h : strContains a n) : strContains (a ++ b) n := by
  obtain ⟨p, q, hpq⟩ := h
  exact ⟨p, q ++ b, by rw [hpq, String.append_assoc]⟩

theorem strContains_append_right {b n : String} (a : String)
    (h : strContains b n) : strContains (a ++ b) n := by
  obtain ⟨p, q, hpq⟩ := h
  exact ⟨a ++ p, q, by rw [hpq]; simp [String.append_assoc]⟩

theorem handle_order_completion_status (now : Nat) (s : Status) (row : Order) :
    (handle_order_completion now s row).status = row.status := by
  unfold handle_order_completion
  split
  · rfl
  · split <;> rfl

theorem runOrderUpdateTriggers_status (now : Nat) (old merged : Order) :
    (runOrderUpdateTriggers now old merged).status = merged.status := by
  unfold runOrderUpdateTriggers
  split
  · exact handle_order_completion_status now old.status merged
  · rfl

theorem runOrderUpdateTriggers_completed_at_ne (now : Nat) (old merged : Order)
    (h : ¬ old.status = merged.status) :
    (runOrderUpdateTriggers now old merged).completed_at =
      (if merged.status = Status.completed then some now else none) := by
  unfold runOrderUpdateTriggers handle_order_completion
  rw [if_pos h]
  by_cases hc : merged.status = Status.completed
  · rw [if_pos ⟨hc, by rw [hc] at h; exact h⟩, if_pos hc]
  · rw [if_neg (fun hand => hc hand.1), if_pos hc, if_neg hc]

theorem runOrderUpdateTriggers_completed_at_eq (now : Nat) (old merged : Order)
    (h : old.status = merged.status) :
    (runOrderUpdateTriggers now old merged).completed_at = merged.completed_at := by
  unfold runOrderUpdateTriggers
  rw [if_neg (fun hne => hne h)]

theorem buildUpdateData_status (role : Role) (body : OrderUpdate) :
    (buildUpdateData role body).status = body.status := rfl

theorem buildUpdateData_isEmpty_false_of_status (role : Role) (body : OrderUpdate)
    (s : Status) (hs : body.status = some s) :
    (buildUpdateData role body).isEmpty = false := by
  simp [OrderUpdate.isEmpty, buildUpdateData, hs]

theorem putOrder_found (env : FanoutEnv) (now : Nat) (role : Role)
    (db : List Order) (oid : String) (body : OrderUpdate) (old : Order)
    (hne : (buildUpdateData role body).isEmpty = false)
    (hfind : db.find? (fun o => o.id = oid) = some old) :
    putOrder env now role db oid body =
      { response := UpdateResponse.ok
          (runOrderUpdateTriggers now old (applyUpdateData old (buildUpdateData role body)))
        store := db.map (fun o => if o.id = oid then
          runOrderUpdateTriggers now old (applyUpdateData old (buildUpdateData role body)) else o)
        notifs := updateNotifications env (role = Role.admin) old.status
          (runOrderUpdateTriggers now old (applyUpdateData old (buildUpdateData role body)))
          (buildUpdateData role body) } := by
  simp only [putOrder, hne, hfind]
  simp

theorem putOrder_empty (env : FanoutEnv) (now : Nat) (role : Role)
    (db : List Order) (oid : String) (body : OrderUpdate)
    (hemp : (buildUpdateData role body).isEmpty = true) :
    putOrder env now role db oid body =
      { response := UpdateResponse.noOp, store := db, notifs := [] } := by
  simp only [putOrder, hemp]
  simp

theorem putOrder_notFound (env : FanoutEnv) (now : Nat) (role : Role)
    (db : List Order) (oid : String) (body : OrderUpdate)
    (hne : (buildUpdateData role body).isEmpty = false)
    (hfind : db.find? (fun o => o.id = oid) = none) :
    putOrder env now role db oid body =
      { response := UpdateResponse.notFound, store := db, notifs := [] } := by
  simp only [putOrder, hne, hfind]
  simp

theorem putOrder_ok_inv (env : FanoutEnv) (now : Nat) (role : Role)
    (db : List Order) (oid : String) (body : OrderUpdate) (old newOrder : Order)
    (hfind : db.find? (fun o => o.id = oid) = some old)
    (hres : (putOrder env now role db oid body).response = UpdateResponse.ok newOrder) :
    (buildUpdateData role body).isEmpty = false ∧
    newOrder = runOrderUpdateTriggers now old (applyUpdateData old (buildUpdateData role body)) := by
  by_cases hemp : (buildUpdateData role body).isEmpty
  · rw [putOrder_empty env now role db oid body hemp] at hres
    cases hres
  · have hne : (buildUpdateData role body).isEmpty = false := by simpa using hemp
    rw [putOrder_found env now role db oid body old hne hfind] at hres
    have hok : UpdateResponse.ok
        (runOrderUpdateTriggers now old (applyUpdateData old (buildUpdateData role body))) =
        UpdateResponse.ok newOrder := hres
    exact ⟨hne, ((UpdateResponse.ok.injEq _ _).mp hok).symm⟩

theorem statusChangeMessage_contains_name (o : Order) (s : Status) :
    strContains (statusChangeMessage o s) o.customer_name := by
  unfold statusChangeMessage
  exact strContains_append_left _ (strContains_append_left _ (strContains_append_left _
    (strContains_append_left _ (strContains_append_right _ (strContains_self _)))))

theorem statusChangeMessage_contains_details (o : Order) (s : Status) :
    strContains (statusChangeMessage o s) o.order_details := by
  unfold statusChangeMessage
  by_cases hd : o.order_details = ""
  · rw [if_pos hd, hd]
    exact strContains_empty _
  · rw [if_neg hd]
    exact strContains_append_right _ (strContains_append_right _ (strContains_self _))

/- ------------------------------------------------------------------ -/
/- Claim theorems -/
/- ------------------------------------------------------------------ -/

/-- C9: for every collection of orders, the statistics total equals the
sum of the five per-status counts, because every order status is one of
exactly the five enum values. -/
theorem C9_stats_total_is_sum_of_status_counts (orders : List Order) :
    (statsSummary orders).total =
      (statsSummary orders).incoming + (statsSummary orders).pending +
        (statsSummary orders).accepted + (statsSummary orders).declined +
        (statsSummary orders).completed := by
  simp only [statsSummary]
  induction orders with
  | nil => rfl
  | cons o t ih =>
    cases h : o.status <;>
      simp only [List.filter_cons, h, List.length_cons] <;>
      simp <;> omega

/-- C4: a viewer calling create-order fails with Forbidden; an admin with
non-empty customer_name and order_details succeeds with status defaulting
to incoming unless overridden; an admin with an empty required field gets
ValidationError. -/
theorem C4_create_order_policy (now : Nat) (role : Role)
    (actorId newId : String) (body : OrderCreateBody) :
    (role = Role.viewer →
      postOrder now role actorId newId body = CreateResponse.forbidden) ∧
    (role = Role.admin → ¬ body.customer_name = "" → ¬ body.order_details = "" →
      ∃ o, postOrder now role actorId newId body = CreateResponse.created o ∧
        o.status = body.status.getD Status.incoming ∧
        (body.status = none → o.status = Status.incoming) ∧
        o.customer_name = body.customer_name ∧
        o.order_details = body.order_details ∧
        o.created_by = some actorId ∧
        o.completed_at = none) ∧
    (role = Role.admin → (body.customer_name = "" ∨ body.order_details = "") →
      postOrder now role actorId newId body = CreateResponse.validationError) := by
  refine ⟨fun hv => ?_, fun ha hc hd => ?_, fun ha hcd => ?_⟩
  · subst hv
    simp [postOrder]
  · subst ha
    have hpost : postOrder now Role.admin actorId newId body =
        CreateResponse.created
          { id := newId
            customer_name := body.customer_name
            order_details := body.order_details
            location := body.location
            phone_number := body.phone_number
            pickup_date := body.pickup_date
            meta_business_link := body.meta_business_link
            image := body.image
            status := body.status.getD Status.incoming
            created_at := now
            completed_at := none
            created_by := some actorId
            updated_at := now } := by
      simp only [postOrder]
      rw [if_neg (by simp), if_neg (by simp [hc, hd])]
    exact ⟨_, hpost, rfl, fun hn => by simp [hn], rfl, rfl, rfl, rfl⟩
  · subst ha
    simp only [postOrder]
    rw [if_neg (by simp), if_pos hcd]

/-- C4 witness: at role viewer the call is Forbidden, and at role admin
with valid fields it is created with status incoming. -/
theorem C4_create_order_policy_witness :
    (postOrder 3 Role.viewer ("u-1") ("o-9")
        ({ customer_name := "Jane", order_details := "2kg vanilla" }) =
      CreateResponse.forbidden) ∧
    (∃ o, postOrder 3 Role.admin ("u-1") ("o-9")
        ({ customer_name := "Jane", order_details := "2kg vanilla" }) =
          CreateResponse.created o ∧
        o.status = (none : Option Status).getD Status.incoming ∧
        ((none : Option Status) = none → o.status = Status.incoming) ∧
        o.customer_name = "Jane" ∧
        o.order_details = "2kg vanilla" ∧
        o.created_by = some ("u-1") ∧
        o.completed_at = none) := by
  constructor
  · exact (C4_create_order_policy 3 Role.viewer ("u-1") ("o-9")
      ({ customer_name := "Jane", order_details := "2kg vanilla" })).1 rfl
  · exact (C4_create_order_policy 3 Role.admin ("u-1") ("o-9")
      ({ customer_name := "Jane", order_details := "2kg vanilla" })).2.1 rfl
      (by decide) (by decide)

/-- C7 counterexample: deleting a non-existent id as admin reports
success (Order deleted successfully), not NotFound, because the handler
never checks whether the supabase delete matched a row. -/
theorem C7_counterexample_absent_id_reports_success :
    ([] : List Order).find? (fun o => o.id = ("missing")) = none ∧
    (deleteOrder Role.admin [] ("missing")).1 = DeleteResponse.success ∧
    ¬ (deleteOrder Role.admin [] ("missing")).1 = DeleteResponse.notFound := by
  refine ⟨rfl, ?_, ?_⟩ <;> simp [deleteOrder]

/-- C7 amended: for every delete-order call by an admin the handler
reports success whether or not the id exists; when the id exists the row
is removed, and when it is absent the store is unchanged and the call
still does not fail with NotFound. -/
theorem C7_delete_order_semantics (db : List Order) (oid : String) :
    (deleteOrder Role.admin db oid).1 = DeleteResponse.success ∧
    (∀ o ∈ (deleteOrder Role.admin db oid).2, o ∈ db ∧ ¬ o.id = oid) ∧
    (∀ o ∈ db, ¬ o.id = oid → o ∈ (deleteOrder Role.admin db oid).2) ∧
    (db.find? (fun o => o.id = oid) = none →
      (deleteOrder Role.admin db oid).2 = db ∧
      ¬ (deleteOrder Role.admin db oid).1 = DeleteResponse.notFound) := by
  have hdel : deleteOrder Role.admin db oid =
      (DeleteResponse.success, db.filter (fun o => ¬ (o.id = oid))) := by
    simp [deleteOrder]
  refine ⟨by rw [hdel], ?_, ?_, fun hnone => ⟨?_, by rw [hdel]; simp⟩⟩
  · intro o ho
    rw [hdel] at ho
    simpa using List.mem_filter.mp ho
  · intro o ho hne
    rw [hdel]
    exact List.mem_filter.mpr ⟨ho, by simpa using hne⟩
  · rw [hdel]
    simp only
    rw [List.filter_eq_self]
    intro o ho
    have := List.find?_eq_none.mp hnone o ho
    simpa using this

/-- C7 witness: with a one-row store and a matching id the row is
removed and the call succeeds. -/
theorem C7_delete_order_semantics_witness :
    (deleteOrder Role.admin [sampleOrder] ("o-1")).1 = DeleteResponse.success ∧
    (sampleOrder ∈ ([sampleOrder] : List Order) ∧ ¬ sampleOrder.id = ("o-2")) ∧
    sampleOrder ∈ (deleteOrder Role.admin [sampleOrder] ("o-2")).2 := by
  refine ⟨(C7_delete_order_semantics [sampleOrder] ("o-1")).1, ⟨by decide, by decide⟩, ?_⟩
  exact (C7_delete_order_semantics [sampleOrder] ("o-2")).2.2.1 sampleOrder
    (by decide) (by decide)

/-- C8: the history append fails with ValidationError exactly when
order_id or event_type is missing (absent or empty, the handler's JS
falsy test); when both are present the created record carries the given
order_id, event_type, the optional fields null-coalesced, and the acting
user's id. -/
theorem C8_history_append_contract (actorId : String) (body : HistoryBody) :
    (postHistory actorId body = HistoryResponse.validationError ↔
      (falsyStr body.order_id = true ∨ falsyStr body.event_type = true)) ∧
    (∀ oid et, body.order_id = some oid → ¬ oid = "" →
      body.event_type = some et → ¬ et = "" →
      postHistory actorId body = HistoryResponse.created
        { order_id := oid
          user_id := actorId
          event_type := et
          old_status := body.old_status
          new_status := body.new_status
          note := body.note }) := by
  constructor
  · unfold postHistory
    by_cases hc : falsyStr body.order_id = true ∨ falsyStr body.event_type = true
    · rw [if_pos hc]
      simp [hc]
    · rw [if_neg hc]
      simp [hc]
  · intro oid et ho hoe he hee
    unfold postHistory
    rw [if_neg (by simp [falsyStr, ho, he, hoe, hee])]
    simp [ho, he]

/-- C8 witness: a payload with both required fields creates the record;
the payload missing event_type is rejected. -/
theorem C8_history_append_contract_witness :
    postHistory ("u-1")
        ({ order_id := some ("o-1")
           event_type := some ("status_change")
           old_status := some ("pending")
           new_status := some ("completed") }) =
      HistoryResponse.created
        { order_id := "o-1"
          user_id := "u-1"
          event_type := "status_change"
          old_status := some ("pending")
          new_status := some ("completed")
          note := none } ∧
    postHistory ("u-1") ({ order_id := some ("o-1") }) =
      HistoryResponse.validationError := by
  constructor
  · exact (C8_history_append_contract ("u-1") _).2 ("o-1") ("status_change")
      rfl (by decide) rfl (by decide)
  · exact (C8_history_append_contract ("u-1")
      ({ order_id := some ("o-1") })).1.mpr (Or.inr (by decide))

/-- C6: authentication fails with Unauthenticated when the bearer
credential is missing, malformed (no Bearer prefix) or rejected by the
provider; and a verified identity with no profile row resolves to role
viewer instead of failing. -/
theorem C6_authentication_contract (env : AuthEnv) (hdr : Option String) :
    (hdr = none → (authenticate env hdr).isUnauthenticated = true) ∧
    (∀ h, hdr = some h → strStartsWith h ("Bearer ") = false →
      (authenticate env hdr).isUnauthenticated = true) ∧
    (∀ h, hdr = some h → strStartsWith h ("Bearer ") = true →
      env.verifyToken (strDrop h 7) = none →
      (authenticate env hdr).isUnauthenticated = true) ∧
    (∀ h u, hdr = some h → strStartsWith h ("Bearer ") = true →
      env.verifyToken (strDrop h 7) = some u →
      env.profiles.find? (fun p => p.id = u.id) = none →
      authenticate env hdr = AuthOutcome.ok u.id u.email Role.viewer) := by
  refine ⟨fun hn => ?_, fun h hh hpre => ?_, fun h hh hpre hv => ?_,
    fun h u hh hpre hv hp => ?_⟩
  · subst hn
    rfl
  · subst hh
    simp [authenticate, hpre, AuthOutcome.isUnauthenticated]
  · subst hh
    simp [authenticate, hpre, hv, AuthOutcome.isUnauthenticated]
  · subst hh
    simp [authenticate, hpre, hv, hp]

/-- A concrete authentication environment: one valid token resolving to
an identity that has no profile row. -/
def sampleAuthEnv : AuthEnv :=
  { verifyToken := fun t => if t = "tok" then some ({ id := "u-9", email := none }) else none
    profiles := [] }

/-- C6 witness: a provider-verified token whose identity has no profile
row yields role viewer, and a missing header is Unauthenticated. -/
theorem C6_authentication_contract_witness :
    authenticate sampleAuthEnv (some ("Bearer tok")) =
      AuthOutcome.ok ("u-9") none Role.viewer ∧
    (authenticate sampleAuthEnv none).isUnauthenticated = true := by
  constructor
  · exact (C6_authentication_contract sampleAuthEnv (some ("Bearer tok"))).2.2.2
      ("Bearer tok") ({ id := "u-9", email := none }) rfl (by decide)
      (by simp [sampleAuthEnv, strDrop]) rfl
  · exact (C6_authentication_contract sampleAuthEnv none).1 rfl

/-- The role recorded on the profile that a registration endpoint leaves
behind, whether or not the follow-up profile update succeeded. -/
theorem registeredProfile_role (env : RegisterEnv) (body : RegisterBody) (r : Role) :
    (registeredProfile env body r r).role = r := by
  unfold registeredProfile handle_new_user
  split <;> rfl

/-- C10: the public register and create-viewer endpoints always create a
viewer account, for every request body including one that supplies a role
value (the handlers never read it); only register-admin creates an admin
account. -/
theorem C10_registration_role_forcing (env : RegisterEnv) (body : RegisterBody) :
    (∀ uid un r, registerViewerAccount env body = RegisterResponse.created uid un r →
      r = Role.viewer) ∧
    (∀ uid un r, createViewerAccount env body = RegisterResponse.created uid un r →
      r = Role.viewer) ∧
    (∀ uid un r, registerAdminAccount env body = RegisterResponse.created uid un r →
      r = Role.admin) := by
  refine ⟨fun uid un r h => ?_, fun uid un r h => ?_, fun uid un r h => ?_⟩
  · unfold registerViewerAccount at h
    repeat' split at h
    all_goals cases h
    all_goals exact registeredProfile_role env body _
  · unfold createViewerAccount at h
    repeat' split at h
    all_goals cases h
    all_goals exact registeredProfile_role env body _
  · unfold registerAdminAccount at h
    repeat' split at h
    all_goals cases h
    all_goals exact registeredProfile_role env body _

/-- A registration environment where the provider and the profile update
both succeed. -/
def sampleRegisterEnv : RegisterEnv :=
  { existingUsernames := []
    signUpOk := true
    newUserId := "u-7"
    profileUpdateOk := true
    emailFormatOk := true }

/-- A registration body that tries to smuggle role admin into the public
registration endpoint. -/
def sampleRegisterBody : RegisterBody :=
  { email := some ("jane@example.com")
    password := some ("secret1")
    username := some ("jane")
    role := some ("admin") }

/-- C10 witness: the public registration of a body carrying role admin
still creates a viewer account. -/
theorem C10_registration_role_forcing_witness :
    registerViewerAccount sampleRegisterEnv sampleRegisterBody =
      RegisterResponse.created ("u-7") ("jane") Role.viewer ∧
    Role.viewer = Role.viewer := by
  constructor
  · decide
  · exact (C10_registration_role_forcing sampleRegisterEnv sampleRegisterBody).1
      ("u-7") ("jane") Role.viewer (by decide)

/-- C5: the HTTP response and the stored order of a PUT update are the
same under every fan-out environment (admin lookup failure, empty admin
set, insert failure), so a fan-out failure can neither fail nor roll back
the triggering mutation; and with the row present and a non-empty
permitted field set, the update succeeds under any fan-out environment. -/
theorem C5_fanout_failure_never_affects_update (env1 env2 : FanoutEnv) (now : Nat)
    (role : Role) (db : List Order) (oid : String) (body : OrderUpdate) :
    (putOrder env1 now role db oid body).response =
      (putOrder env2 now role db oid body).response ∧
    (putOrder env1 now role db oid body).store =
      (putOrder env2 now role db oid body).store ∧
    (∀ old, db.find? (fun o => o.id = oid) = some old →
      (buildUpdateData role body).isEmpty = false →
      ∃ newOrder, (putOrder env1 now role db oid body).response =
        UpdateResponse.ok newOrder) := by
  by_cases hemp : (buildUpdateData role body).isEmpty
  · rw [putOrder_empty env1 now role db oid body hemp,
      putOrder_empty env2 now role db oid body hemp]
    exact ⟨rfl, rfl, fun old hfind hne => by rw [hemp] at hne; cases hne⟩
  · have hne : (buildUpdateData role body).isEmpty = false := by simpa using hemp
    cases hfind : db.find? (fun o => o.id = oid) with
    | none =>
      rw [putOrder_notFound env1 now role db oid body hne hfind,
        putOrder_notFound env2 now role db oid body hne hfind]
      exact ⟨rfl, rfl, fun old hfind2 _ => by cases hfind2⟩
    | some old =>
      rw [putOrder_found env1 now role db oid body old hne hfind,
        putOrder_found env2 now role db oid body old hne hfind]
      exact ⟨rfl, rfl, fun old2 hfind2 _ => ⟨_, rfl⟩⟩

/-- C5 witness: with a failing admin lookup and with a failing insert,
the update response and resulting store equal the ones of the succeeding
environment, and the update itself succeeds. -/
theorem C5_fanout_failure_never_affects_update_witness :
    (putOrder sampleEnvLookupFail 7 Role.admin [sampleOrder] ("o-1")
        ({ status := some Status.completed })).response =
      (putOrder sampleEnvOk 7 Role.admin [sampleOrder] ("o-1")
        ({ status := some Status.completed })).response ∧
    (putOrder sampleEnvInsertFail 7 Role.admin [sampleOrder] ("o-1")
        ({ status := some Status.completed })).store =
      (putOrder sampleEnvOk 7 Role.admin [sampleOrder] ("o-1")
        ({ status := some Status.completed })).store ∧
    ∃ newOrder, (putOrder sampleEnvLookupFail 7 Role.admin [sampleOrder] ("o-1")
        ({ status := some Status.completed })).response =
      UpdateResponse.ok newOrder := by
  refine ⟨?_, ?_, ?_⟩
  · exact (C5_fanout_failure_never_affects_update sampleEnvLookupFail sampleEnvOk 7
      Role.admin [sampleOrder] ("o-1") ({ status := some Status.completed })).1
  · exact (C5_fanout_failure_never_affects_update sampleEnvInsertFail sampleEnvOk 7
      Role.admin [sampleOrder] ("o-1") ({ status := some Status.completed })).2.1
  · exact (C5_fanout_failure_never_affects_update sampleEnvLookupFail sampleEnvOk 7
      Role.admin [sampleOrder] ("o-1") ({ status := some Status.completed })).2.2
      sampleOrder (by decide) (by decide)

/-- C3: an admin-only field (completed_at) in a viewer payload is
silently dropped (the whole request behaves as if the field were absent,
no error), the update proceeds with the allowed subset and returns NoOp
only when that subset is empty; a viewer payload containing only
completed_at is rejected as NoOp while the identical payload from an
admin succeeds on an existing order. -/
theorem C3_viewer_admin_only_field_dropped (env : FanoutEnv) (now : Nat)
    (db : List Order) (oid : String) (body : OrderUpdate) :
    (buildUpdateData Role.viewer body).completed_at = none ∧
    putOrder env now Role.viewer db oid body =
      putOrder env now Role.viewer db oid ({ body with completed_at := none }) ∧
    ((buildUpdateData Role.viewer body).isEmpty = true →
      (putOrder env now Role.viewer db oid body).response = UpdateResponse.noOp) ∧
    (∀ c, (putOrder env now Role.viewer db oid (onlyCompletedAt c)).response =
      UpdateResponse.noOp) ∧
    (∀ c old, db.find? (fun o => o.id = oid) = some old →
      ∃ newOrder, (putOrder env now Role.admin db oid (onlyCompletedAt c)).response =
        UpdateResponse.ok newOrder) := by
  refine ⟨rfl, rfl, fun hemp => ?_, fun c => ?_, fun c old hfind => ?_⟩
  · rw [putOrder_empty env now Role.viewer db oid body hemp]
  · rw [putOrder_empty env now Role.viewer db oid (onlyCompletedAt c) rfl]
  · rw [putOrder_found env now Role.admin db oid (onlyCompletedAt c) old rfl hfind]
    exact ⟨_, rfl⟩

/-- C3 witness: on a one-row store, the payload that only sets
completed_at is NoOp for a viewer and succeeds for an admin. -/
theorem C3_viewer_admin_only_field_dropped_witness :
    (putOrder sampleEnvOk 7 Role.viewer [sampleOrder] ("o-1")
        (onlyCompletedAt (some 5))).response = UpdateResponse.noOp ∧
    ∃ newOrder, (putOrder sampleEnvOk 7 Role.admin [sampleOrder] ("o-1")
        (onlyCompletedAt (some 5))).response = UpdateResponse.ok newOrder := by
  constructor
  · exact (C3_viewer_admin_only_field_dropped sampleEnvOk 7 [sampleOrder] ("o-1")
      (onlyCompletedAt (some 5))).2.2.2.1 (some 5)
  · exact (C3_viewer_admin_only_field_dropped sampleEnvOk 7 [sampleOrder] ("o-1")
      (onlyCompletedAt (some 5))).2.2.2.2 (some 5) sampleOrder (by decide)

/-- C1 counterexample: the claimed invariant fails on an admin payload
that sets completed_at directly without changing status. On a pending
order, the admin-only completed_at passthrough stores a non-null
completed_at while status stays pending, because the SQL trigger that
derives completed_at only fires when status changes. -/
theorem C1_counterexample_admin_completed_at_passthrough :
    (putOrder sampleEnvOk 7 Role.admin [sampleOrder] ("o-1")
        (onlyCompletedAt (some 5))).response =
      UpdateResponse.ok ({ sampleOrder with completed_at := some 5, updated_at := 7 }) ∧
    ¬ ({ sampleOrder with completed_at := some 5, updated_at := 7 } : Order).completed_at = none ∧
    ¬ ({ sampleOrder with completed_at := some 5, updated_at := 7 } : Order).status =
      Status.completed := by
  refine ⟨?_, by decide, by decide⟩
  decide

/-- C1 (amended): after any accepted update whose payload changes status,
completed_at is non-null iff status is completed — set to the mutation
time on a transition into completed and cleared on a transition away; and
any update whose permitted field set does not touch completed_at
preserves the biconditional. The claim's extension to admin payloads that
set completed_at directly without changing status is refuted by the
counterexample. -/
theorem C1_completed_at_derivation (env : FanoutEnv) (now : Nat) (role : Role)
    (db : List Order) (oid : String) (body : OrderUpdate) (old newOrder : Order)
    (hfind : db.find? (fun o => o.id = oid) = some old)
    (hres : (putOrder env now role db oid body).response = UpdateResponse.ok newOrder) :
    (∀ s, body.status = some s → ¬ s = old.status →
      ((¬ newOrder.completed_at = none) ↔ newOrder.status = Status.completed) ∧
      (newOrder.status = Status.completed → newOrder.completed_at = some now) ∧
      (¬ newOrder.status = Status.completed → newOrder.completed_at = none)) ∧
    ((buildUpdateData role body).completed_at = none →
      ((¬ old.completed_at = none) ↔ old.status = Status.completed) →
      ((¬ newOrder.completed_at = none) ↔ newOrder.status = Status.completed)) := by
  obtain ⟨hne, hN⟩ := putOrder_ok_inv env now role db oid body old newOrder hfind hres
  subst hN
  constructor
  · intro s hs hsne
    have hms : (applyUpdateData old (buildUpdateData role body)).status = s := by
      simp [applyUpdateData, buildUpdateData, hs]
    have hneq : ¬ old.status = (applyUpdateData old (buildUpdateData role body)).status := by
      rw [hms]
      exact fun hcon => hsne hcon.symm
    have hstat : (runOrderUpdateTriggers now old
        (applyUpdateData old (buildUpdateData role body))).status = s := by
      rw [runOrderUpdateTriggers_status]
      exact hms
    have hca : (runOrderUpdateTriggers now old
        (applyUpdateData old (buildUpdateData role body))).completed_at =
        (if s = Status.completed then some now else none) := by
      rw [runOrderUpdateTriggers_completed_at_ne now old _ hneq, hms]
    by_cases hsc : s = Status.completed
    · rw [hca, hstat, if_pos hsc]
      exact ⟨by simp [hsc], fun _ => rfl, fun hcon => absurd hsc hcon⟩
    · rw [hca, hstat, if_neg hsc]
      exact ⟨by simp [hsc], fun hcon => absurd hcon hsc, fun _ => rfl⟩
  · intro hcnone hinv
    have hmca : (applyUpdateData old (buildUpdateData role body)).completed_at =
        old.completed_at := by
      simp [applyUpdateData, hcnone]
    by_cases hstat : old.status = (applyUpdateData old (buildUpdateData role body)).status
    · have h1 : (runOrderUpdateTriggers now old
          (applyUpdateData old (buildUpdateData role body))).completed_at =
          old.completed_at := by
        rw [runOrderUpdateTriggers_completed_at_eq now old _ hstat, hmca]
      have h2 : (runOrderUpdateTriggers now old
          (applyUpdateData old (buildUpdateData role body))).status = old.status := by
        rw [runOrderUpdateTriggers_status]
        exact hstat.symm
      rw [h1, h2]
      exact hinv
    · rw [runOrderUpdateTriggers_completed_at_ne now old _ hstat,
        runOrderUpdateTriggers_status]
      by_cases hc : (applyUpdateData old (buildUpdateData role body)).status =
          Status.completed
      · simp [hc]
      · simp [hc]

/-- C1 witness: an admin update that moves a pending order to completed
yields completed_at equal to the mutation time, satisfying the amended
property at a concrete input. -/
theorem C1_completed_at_derivation_witness :
    ([sampleOrder].find? (fun o => o.id = ("o-1")) = some sampleOrder) ∧
    ((putOrder sampleEnvOk 7 Role.admin [sampleOrder] ("o-1")
        ({ status := some Status.completed })).response =
      UpdateResponse.ok sampleCompletedOrder) ∧
    ((¬ sampleCompletedOrder.completed_at = none) ↔
      sampleCompletedOrder.status = Status.completed) := by
  refine ⟨by decide, by decide, ?_⟩
  exact ((C1_completed_at_derivation sampleEnvOk 7 Role.admin [sampleOrder] ("o-1")
    ({ status := some Status.completed }) sampleOrder sampleCompletedOrder
    (by decide) (by decide)).1 Status.completed rfl (by decide)).1

/-- C2: when an update payload carries a status different from the old
one, the handler creates exactly one notification per profile with role
admin (the acting admin is not excluded), each titled with the uppercased
new status, with a message containing the order's customer_name and
order_details, and typed success for completed, warning for declined,
order otherwise; when the payload's status equals the old one, no
notification is created. -/
theorem C2_status_change_notifies_every_admin (env : FanoutEnv) (now : Nat)
    (role : Role) (db : List Order) (oid : String) (body : OrderUpdate)
    (profiles : List UserProfile) (old newOrder : Order) (s : Status)
    (hlookup : env.adminLookup =
      Except.ok ((profiles.filter (fun p => p.role = Role.admin)).map (fun p => p.id)))
    (hins : env.insertFailure = none)
    (hfind : db.find? (fun o => o.id = oid) = some old)
    (hs : body.status = some s)
    (hres : (putOrder env now role db oid body).response = UpdateResponse.ok newOrder) :
    (¬ old.status = s →
      ((putOrder env now role db oid body).notifs).map (fun n => n.user_id) =
        (profiles.filter (fun p => p.role = Role.admin)).map (fun p => p.id) ∧
      (∀ n ∈ (putOrder env now role db oid body).notifs,
        n.title = "Order Moved: " ++ s.toUpperText ∧
        strContains n.message newOrder.customer_name ∧
        strContains n.message newOrder.order_details ∧
        n.type = (if s = Status.completed then NotifType.success
          else if s = Status.declined then NotifType.warning else NotifType.order) ∧
        n.order_id = some newOrder.id)) ∧
    (old.status = s → (putOrder env now role db oid body).notifs = []) := by
  obtain ⟨hne, hN⟩ := putOrder_ok_inv env now role db oid body old newOrder hfind hres
  rw [putOrder_found env now role db oid body old hne hfind]
  have hus : (buildUpdateData role body).status = some s := hs
  constructor
  · intro hchange
    simp only [updateNotifications, hus, if_neg hchange]
    simp only [createNotificationForAdmins, hlookup, hins]
    by_cases hadm : ((profiles.filter (fun p => p.role = Role.admin)).map
        (fun p => p.id)).isEmpty
    · rw [if_pos hadm]
      rw [List.isEmpty_iff] at hadm
      rw [hadm]
      exact ⟨rfl, fun n hn => absurd hn (List.not_mem_nil n)⟩
    · rw [if_neg hadm, if_neg hadm]
      constructor
      · simp [List.map_map, Function.comp]
      · intro n hn
        obtain ⟨a, _, hna⟩ := List.mem_map.mp hn
        subst hna
        subst hN
        refine ⟨rfl, ?_, ?_, rfl, rfl⟩
        · exact statusChangeMessage_contains_name _ s
        · exact statusChangeMessage_contains_details _ s
  · intro hsame
    simp only [updateNotifications, hus, if_pos hsame]

/-- A profile store with one admin and one viewer, matching the admin
lookup of sampleEnvOk. -/
def sampleProfiles : List UserProfile :=
  [{ id := "a-1", username := "boss", role := Role.admin },
   { id := "v-1", username := "clerk", role := Role.viewer }]

/-- C2 witness: moving the sample pending order to completed notifies
exactly the one admin profile with a success-typed notification. -/
theorem C2_status_change_notifies_every_admin_witness :
    ((putOrder sampleEnvOk 7 Role.admin [sampleOrder] ("o-1")
        ({ status := some Status.completed })).notifs).map (fun n => n.user_id) =
      ((sampleProfiles.filter (fun p => p.role = Role.admin)).map (fun p => p.id)) ∧
    (∀ n ∈ (putOrder sampleEnvOk 7 Role.admin [sampleOrder] ("o-1")
        ({ status := some Status.completed })).notifs,
      n.title = "Order Moved: " ++ Status.completed.toUpperText ∧
      strContains n.message sampleCompletedOrder.customer_name ∧
      strContains n.message sampleCompletedOrder.order_details ∧
      n.type = (if Status.completed = Status.completed then NotifType.success
        else if Status.completed = Status.declined then NotifType.warning
        else NotifType.order) ∧
      n.order_id = some sampleCompletedOrder.id) := by
  exact (C2_status_change_notifies_every_admin sampleEnvOk 7 Role.admin [sampleOrder]
    ("o-1") ({ status := some Status.completed }) sampleProfiles sampleOrder
    sampleCompletedOrder
    Status.completed rfl rfl (by decide) rfl (by decide)).1 (by decide)

end DcServer
